import Mathlib

/-!
Verification of `todiem.py` (automatic grade-overlay tool for exam sheets).

The Python source is shallowly embedded below: scores and page coordinates
are rationals (`ℚ`), spreadsheet cells are an inductive `Cell` (absent /
numeric / non-numeric), Python dicts are insertion-ordered association
lists with in-place update, PDF documents are lists of pages, a page a list
of positioned words, and the drawing canvas is modelled as the list of draw
operations issued.  Fallible operations return `Option` / `Except`.
All definitions are executable and translated clause by clause from the
source file `todiem.py`.
-/

set_option maxRecDepth 4000

/-! ## String helpers (List-Char based, modelling Python string primitives) -/

/-- Python `str.strip()` on a character list: drop whitespace on both ends. -/
def pytrimList (l : List Char) : List Char :=
  ((l.dropWhile Char.isWhitespace).reverse.dropWhile Char.isWhitespace).reverse

/-- Python `str.strip()`. -/
def pytrim (s : String) : String :=
  String.mk (pytrimList s.data)

/-- Python `str.lower()` (ASCII case folding). -/
def pylower (s : String) : String :=
  String.mk (s.data.map Char.toLower)

/-- Substring containment on character lists: Python `needle in haystack`. -/
def infixOf (needle : List Char) : List Char → Bool
  | [] => needle.isEmpty
  | c :: rest => needle.isPrefixOf (c :: rest) || infixOf needle rest

/-- Python `needle in haystack` on strings. -/
def strContains (haystack needle : String) : Bool :=
  infixOf needle.data haystack.data

/-- Python `s.endswith(t)`. -/
def strEndsWith (s t : String) : Bool :=
  List.isSuffixOf t.data s.data

/-! ## Numeric helpers -/

/-- Python `int()` applied to a numeric value: truncation toward zero. -/
def pyint (q : ℚ) : ℤ :=
  if 0 ≤ q then ⌊q⌋ else ⌈q⌉

/-- Round a rational to the nearest integer, ties to even: the rounding of
Python 3's built-in `round`. -/
def rhe (q : ℚ) : ℤ :=
  let f := ⌊q⌋
  let r := q - (f : ℚ)
  if r < 1/2 then f
  else if 1/2 < r then f + 1
  else if f % 2 = 0 then f else f + 1

/-- Python `round(q, 1)`: round to one decimal place, ties to even. -/
def round1 (q : ℚ) : ℚ :=
  ((rhe (10 * q) : ℚ)) / 10

/-! ## Spreadsheet cells and `convert_to_text` -/

/-- A spreadsheet score cell as pandas hands it over: `na` (NaN / absent),
a numeric value, or a non-numeric value (e.g. a text cell). -/
inductive Cell where
  | na : Cell
  | num (q : ℚ) : Cell
  | other : Cell
deriving DecidableEq, Repr

/-- `number_words` of `convert_to_text` (todiem.py line 131). -/
def number_words : List String :=
  ["Không", "Một", "Hai", "Ba", "Bốn", "Năm", "Sáu", "Bảy", "Tám", "Chín"]

/-- `GradeProcessor.convert_to_text` (todiem.py lines 120-142), clause by
clause: absent → "Vắng"; non-numeric or out of [0,10] → "Không hợp lệ";
integer part 10 → "Mười"; zero fraction → the integer word; fraction
rounding to 0.5 → integer word + " rưỡi"; otherwise the integer word. -/
def convert_to_text : Cell → String
  | Cell.na => "Vắng"
  | Cell.other => "Không hợp lệ"
  | Cell.num q =>
    if q < 0 ∨ q > 10 then "Không hợp lệ"
    else
      let integer_part := pyint q
      let decimal_part := q - (integer_part : ℚ)
      if integer_part = 10 then "Mười"
      else if decimal_part = 0 then (number_words.getD integer_part.toNat "")
      else if round1 decimal_part = 0.5 then
        (number_words.getD integer_part.toNat "") ++ " rưỡi"
      else (number_words.getD integer_part.toNat "")

/-! ## Documents: pdfplumber's per-page word extraction -/

/-- One extracted word with its bounding positions, as pdfplumber's
`page.extract_words()` returns it: `(text, x0, top, bottom)`. -/
structure Word where
  text : String
  x0 : ℚ
  top : ℚ
  bottom : ℚ
deriving DecidableEq, Repr

/-- A page is its extracted word list; a document its page list. -/
abbrev Page := List Word

abbrev Document := List Page

/-- All words of a document paired with their 1-based page number, in
page-then-word order (`enumerate(pdf.pages, 1)` of the source). -/
def docStream : Nat → Document → List (Nat × Word)
  | _, [] => []
  | n, pg :: rest => pg.map (fun w => (n, w)) ++ docStream (n + 1) rest

/-- Python word characters (`\w`): letters, digits, underscore. -/
def isWordChar (c : Char) : Bool :=
  c.isAlpha || c.isDigit || c = '_'

/-- `re.match(r'\b[1-9]\d{8}\b', text)`: the token starts with a nonzero
digit followed by eight digits, and the character after them (if any) is a
non-word character (todiem.py line 162). -/
def matchesStudentId (s : String) : Bool :=
  match s.data with
  | [] => false
  | c :: rest =>
    ('1' ≤ c && c ≤ '9') && rest.take 8 == (rest.take 8).filter Char.isDigit
      && (rest.take 8).length == 8
      && (match rest.drop 8 with
          | [] => true
          | d :: _ => !isWordChar d)

/-! ## Python dicts as insertion-ordered association lists -/

/-- A Python dict with string keys: an association list in insertion order. -/
abbrev Dict (α : Type) := List (String × α)

/-- `d[k] = v` on a Python dict: replace the value in place if the key is
present, else append the binding at the end. -/
def dinsert {α : Type} : Dict α → String → α → Dict α
  | [], k, v => [(k, v)]
  | e :: rest, k, v =>
    if e.1 = k then (k, v) :: rest else e :: dinsert rest k v

/-- `d.get(k)` / `k in d` on a Python dict. -/
def dlookup {α : Type} : Dict α → String → Option α
  | [], _ => none
  | e :: rest, k => if e.1 = k then some e.2 else dlookup rest k

/-- `dict(zip(keys, values))`: insert the bindings left to right (a later
duplicate key overwrites the value of an earlier one). -/
def buildDict {α : Type} (l : List (String × α)) : Dict α :=
  l.foldl (fun d e => dinsert d e.1 e.2) []

/-- The value of the LAST binding of key `k` in `l`, if any. -/
def lastVal {α : Type} : List (String × α) → String → Option α
  | [], _ => none
  | e :: rest, k =>
    match lastVal rest k with
    | some v => some v
    | none => if e.1 = k then some e.2 else none

/-! ## AnchorLocator: `find_grade_column` and `extract_student_positions` -/

/-- `GradeProcessor.find_grade_column` (todiem.py lines 144-157): the first
word, in page-then-word order, whose text contains "Điểm"; its
`(x0, top, bottom)`. -/
def find_grade_column (doc : Document) : Option (ℚ × ℚ × ℚ) :=
  ((docStream 1 doc).find? (fun e => strContains e.2.text "Điểm")).map
    (fun e => (e.2.x0, e.2.top, e.2.bottom))

/-- `GradeProcessor.extract_student_positions` (todiem.py lines 159-180):
scan every page; every word matching the student-id pattern is assigned
into the dict (`student_positions[text] = (x0, top, page_num)`), so a later
occurrence of the same id overwrites an earlier one. -/
def extract_student_positions (doc : Document) : Dict (ℚ × ℚ × Nat) :=
  (docStream 1 doc).foldl
    (fun d e =>
      if matchesStudentId e.2.text then
        dinsert d e.2.text (e.2.x0, e.2.top, e.1)
      else d)
    []

/-- The matched id occurrences of a document in page-then-word order, as
(text, (x0, top, page)) bindings. -/
def matchedEntries (doc : Document) : List (String × (ℚ × ℚ × Nat)) :=
  (docStream 1 doc).filterMap
    (fun e =>
      if matchesStudentId e.2.text then
        some (e.2.text, (e.2.x0, e.2.top, e.1))
      else none)

/-! ## GradeTable: `load_excel_data` -/

/-- The tabular source as the pandas collaborator returns it: whether the
path resolves, the column names, and the rows' (id, score) pairs. -/
structure Excel where
  pathExists : Bool
  cols : List String
  rows : List (String × Cell)
deriving DecidableEq, Repr

/-- The rows with their ids stringified and stripped
(`df['Mã SV'].astype(str).str.strip()`, todiem.py line 79). -/
def trimmedRows (e : Excel) : List (String × Cell) :=
  e.rows.map (fun r => (pytrim r.1, r.2))

/-- The ids whose score is present but outside [0, 10] (todiem.py lines
82-83). -/
def invalid_score_ids (e : Excel) : List String :=
  ((trimmedRows e).filter
    (fun r =>
      match r.2 with
      | Cell.num q => decide (q < 0 ∨ q > 10)
      | _ => false)).map Prod.fst

/-- The ids the out-of-range warning lists: `invalid_scores[:5]`
(todiem.py line 85). -/
def warned_ids (e : Excel) : List String :=
  (invalid_score_ids e).take 5

/-- `GradeProcessor.load_excel_data` (todiem.py lines 64-94): `None` when
the path does not resolve or a required column is missing; the range check
`(df['Điểm'] < 0) | (df['Điểm'] > 10)` raises a `TypeError` on a
non-numeric cell, which the surrounding `except` turns into `None`;
otherwise the dict of stripped ids to scores, out-of-range scores
included. -/
def load_excel_data (e : Excel) : Option (Dict Cell) :=
  if e.pathExists = false then none
  else if ¬ ("Mã SV" ∈ e.cols ∧ "Điểm" ∈ e.cols) then none
  else if e.rows.any (fun r => match r.2 with | Cell.other => true | _ => false)
  then none
  else some (buildDict (trimmedRows e))

/-! ## OverlayRenderer: canvas operations and the per-student marks -/

/-- One reportlab canvas call: `drawString`, `drawCentredString`, or a
filled `circle`. -/
inductive DrawOp where
  | text (x y : ℚ) (s : String) : DrawOp
  | centredText (x y : ℚ) (s : String) : DrawOp
  | circle (x y r : ℚ) : DrawOp
deriving DecidableEq, Repr

/-- The four supervisor / grader names (`get_user_input_info`). -/
structure Info where
  supervisor1 : String
  supervisor2 : String
  grader1 : String
  grader2 : String
deriving DecidableEq, Repr

/-- `GradeProcessor._add_header_info` (todiem.py lines 257-267): the
total and absent counts and the four names at fixed coordinates. -/
def add_header_info (total_students absent_count : Nat) (info : Info) :
    List DrawOp :=
  [DrawOp.text 125 93.5 (toString total_students),
   DrawOp.text 125 75 (toString absent_count),
   DrawOp.centredText 380 52 info.supervisor1,
   DrawOp.centredText 380 15 info.supervisor2,
   DrawOp.centredText 505 52 info.grader1,
   DrawOp.centredText 505 15 info.grader2]

/-- `GradeProcessor._draw_score_circles` (todiem.py lines 290-307): the
integer-part bubble, and the half-point bubble when the fractional part
rounds to 0.5. -/
def draw_score_circles (column_x y_adjusted score : ℚ) : List DrawOp :=
  let circle_x := column_x + 44.5 + (pyint score : ℚ) * 16.7
  let circle_y := y_adjusted + 3
  let radius := 4 * 2.8346 / 2
  [DrawOp.circle circle_x circle_y radius] ++
    (if round1 (score - (pyint score : ℚ)) = 0.5 then
      [DrawOp.circle (column_x + 229) (y_adjusted + 3) radius]
    else [])

/-- The canvas calls one student entry of `_add_student_grades` issues
(todiem.py lines 275-288) once its page check passed: nothing when the id
is not in the grade dict; the grade text, plus the score circles when the
score is numeric and in range; `Except.error` models the `TypeError` that
`0 <= score <= 10` raises on a non-numeric score. -/
def studentEntryOps (column_x top : ℚ) (grades : Dict Cell) (id : String) :
    Except Unit (List DrawOp) :=
  let x := column_x - 12
  let y_adjusted := (832 : ℚ) - top
  match dlookup grades (pytrim id) with
  | none => Except.ok []
  | some score =>
    match score with
    | Cell.na => Except.ok [DrawOp.text x y_adjusted (convert_to_text Cell.na)]
    | Cell.num q =>
      Except.ok
        ([DrawOp.text x y_adjusted (convert_to_text (Cell.num q))] ++
          (if 0 ≤ q ∧ q ≤ 10 then draw_score_circles column_x y_adjusted q
          else []))
    | Cell.other => Except.error ()

/-- `GradeProcessor._add_student_grades` (todiem.py lines 269-288): all
students of the positions dict whose (1-based) page is the current
(0-based) page index, in dict order; an exception aborts the page. -/
def addStudentGrades :
    List (String × (ℚ × ℚ × Nat)) → Dict Cell → Nat → ℚ →
      Except Unit (List DrawOp)
  | [], _, _, _ => Except.ok []
  | e :: rest, grades, page_num, column_x =>
    if (e.2.2.2 : ℤ) - 1 = (page_num : ℤ) then
      match studentEntryOps column_x e.2.2.1 grades e.1,
          addStudentGrades rest grades page_num column_x with
      | Except.ok ops, Except.ok more => Except.ok (ops ++ more)
      | Except.error u, _ => Except.error u
      | Except.ok _, Except.error u => Except.error u
    else addStudentGrades rest grades page_num column_x

/-- `absent_count` of `add_grade_to_pdf` (todiem.py line 208): positioned
students whose looked-up score is NaN. -/
def absent_count (sp : Dict (ℚ × ℚ × Nat)) (grades : Dict Cell) : Nat :=
  (sp.filter
    (fun e =>
      match dlookup grades e.1 with
      | some Cell.na => true
      | _ => false)).length

/-- The overlay canvas of one 0-based page index: header info on page 0
only, then the per-student grades (todiem.py lines 217-230). -/
def pageOverlay (sp : Dict (ℚ × ℚ × Nat)) (grades : Dict Cell) (info : Info)
    (column_x : ℚ) (page_num : Nat) : Except Unit (List DrawOp) :=
  match addStudentGrades sp grades page_num column_x with
  | Except.error u => Except.error u
  | Except.ok ops =>
    Except.ok
      ((if page_num = 0 then
        add_header_info sp.length (absent_count sp grades) info
      else []) ++ ops)

def exceptOk {α : Type} : Except Unit α → Bool
  | Except.ok _ => true
  | Except.error _ => false

def exceptToOption {α : Type} : Except Unit α → Option α
  | Except.ok a => some a
  | Except.error _ => none

/-- The output document: each source page in order, paired with its merged
overlay (none when creating/merging the overlay page failed, modelled by
the `mergeOk` oracle for the external merge collaborator). -/
def assemble (ov : Nat → Option (List DrawOp)) :
    Nat → Document → List (Page × Option (List DrawOp))
  | _, [] => []
  | p, pg :: rest => (pg, ov p) :: assemble ov (p + 1) rest

/-- `GradeProcessor.add_grade_to_pdf` (todiem.py lines 182-255): fails when
the input does not exist, the grade column is not found, or no student id
was extracted; a `TypeError` raised while drawing a page propagates to the
outer `except` and fails the document; a failed overlay merge (`mergeOk`
false) leaves that page unmarked but still appended. -/
def add_grade_to_pdf (inputExists : Bool) (doc : Document)
    (grades : Dict Cell) (info : Info) (mergeOk : Nat → Bool) :
    Option (List (Page × Option (List DrawOp))) :=
  if inputExists = false then none
  else
    match find_grade_column doc with
    | none => none
    | some anchor =>
      let column_x := anchor.1
      let sp := extract_student_positions doc
      if sp.isEmpty then none
      else if
        ¬ ((List.range doc.length).all
          (fun p => exceptOk (pageOverlay sp grades info column_x p)) = true)
      then none
      else
        some (assemble
          (fun p =>
            if mergeOk p then exceptToOption (pageOverlay sp grades info column_x p)
            else none)
          0 doc)

/-! ## CategoryClassifier: `rename_pdf_files` -/

/-- A PDF file on disk: its name, its concatenated extracted text (what
`page.extract_text()` accumulates), and its word-position stream. -/
structure PdfFile where
  name : String
  text : String
  doc : Document
deriving DecidableEq, Repr

/-- The `keywords` dict of `rename_pdf_files` (todiem.py lines 354-358), in
iteration order. -/
def keywords_list : List (String × String) :=
  [("quá trình", "_qt"), ("giữa kỳ", "_gk"), ("cuối kỳ", "_ck")]

/-- `tuple(keywords.values())` (todiem.py line 381). -/
def category_suffixes : List String := ["_qt", "_gk", "_ck"]

/-- The suffix for a document's content: the first keyword contained in the
lowercased content, if any (todiem.py lines 373-377). -/
def content_suffix (content : String) : Option String :=
  (keywords_list.find? (fun kv => strContains (pylower content) kv.1)).map
    Prod.snd

/-- The k-th candidate target name: `base+suffix+".pdf"` for k = 0, then
`base+suffix+"_k.pdf"` (todiem.py lines 382-390). -/
def candName (base sfx : String) (k : Nat) : String :=
  if k = 0 then base ++ sfx ++ ".pdf"
  else base ++ sfx ++ "_" ++ toString k ++ ".pdf"

/-- The `while os.path.exists(new_file_path)` loop: the first candidate
index not naming an existing file.  At most `names.length` candidates can
collide, so fuel `names.length + 1` suffices. -/
def searchFree (names : List String) (base sfx : String) :
    Nat → Nat → Option Nat
  | 0, _ => none
  | fuel + 1, k =>
    if names.contains (candName base sfx k) then
      searchFree names base sfx fuel (k + 1)
    else some k

def rename_target (names : List String) (base sfx : String) : String :=
  candName base sfx
    ((searchFree names base sfx (names.length + 1) 0).getD (names.length + 1))

/-- One iteration of the `rename_pdf_files` loop over the listing snapshot:
given the current directory contents `st`, process the file that was listed
as `e`; returns the new contents and the applied rename, if any. -/
def rename_step (st : List PdfFile) (e : PdfFile) :
    List PdfFile × Option (String × String) :=
  if strEndsWith e.name ".pdf" = false then (st, none)
  else
    match content_suffix e.text with
    | none => (st, none)
    | some sfx =>
      let base := e.name.dropRight 4
      if category_suffixes.any (fun s => strEndsWith base s) then (st, none)
      else
        let newName := rename_target (st.map PdfFile.name) base sfx
        (st.map (fun f => if f.name = e.name then PdfFile.mk newName f.text f.doc else f),
          some (e.name, newName))

/-- `GradeProcessor.rename_pdf_files` (todiem.py lines 351-398): fold the
listing snapshot through `rename_step`; returns the final directory
contents and the renames applied, in order. -/
def rename_pdf_files (fs : List PdfFile) : List PdfFile × List (String × String) :=
  fs.foldl
    (fun acc e =>
      let r := rename_step acc.1 e
      (r.1, acc.2 ++ r.2.toList))
    (fs, [])

/-! ## BatchPipeline: `prepare_grade_files`, `process_grade_type`,
`process_files` -/

/-- The main spreadsheet as `prepare_grade_files` reads it (only existence
and column names decide its result). -/
structure PrepExcel where
  pathExists : Bool
  cols : List String
deriving DecidableEq, Repr

/-- The `grade_columns` dict (todiem.py lines 320-324), in iteration
order. -/
def grade_columns : List (String × String) :=
  [("qt", "Điểm quá trình"), ("gk", "Điểm giữa kỳ"), ("ck", "Điểm cuối kỳ")]

/-- `GradeProcessor.prepare_grade_files` (todiem.py lines 309-349): fails
when the file is missing, the `StudentID` column is missing, or none of the
three category score columns is present; otherwise the category keys whose
column exists, in fixed order. -/
def prepare_grade_files (e : PrepExcel) : Option (List String) :=
  if e.pathExists = false then none
  else if ¬ ("StudentID" ∈ e.cols) then none
  else
    let available_types := (grade_columns.filter (fun gc => gc.2 ∈ e.cols)).map Prod.fst
    if available_types = [] then none else some available_types

/-- The per-category document filter of `process_grade_type` (todiem.py
lines 407-408): `.pdf` files whose name CONTAINS `"<grade_type>.pdf"`. -/
def pdf_filter (grade_type : String) (names : List String) : List String :=
  names.filter
    (fun f => strEndsWith f ".pdf" && strContains f (grade_type ++ ".pdf"))

/-- The output naming convention `f'output_{pdf_file}'` (todiem.py line
421). -/
def output_name (f : String) : String := "output_" ++ f

/-- The working directory for one pipeline run: the spreadsheet listing,
the main spreadsheet, the PDF files, the written per-category grade files,
the collected names, and the per-document merge oracle. -/
structure BatchEnv where
  xlsxFiles : List String
  excel : PrepExcel
  pdfs : List PdfFile
  gradeFiles : String → Excel
  info : Info
  mergeOk : String → Nat → Bool

/-- The document stored under a file name. -/
def docOf (pdfs : List PdfFile) (n : String) : Document :=
  ((pdfs.find? (fun f => f.name = n)).map PdfFile.doc).getD []

/-- `GradeProcessor.process_grade_type` (todiem.py lines 400-426): 0 when
the category's grade file, matching documents or grade data are missing;
otherwise the number of documents `add_grade_to_pdf` succeeded on. -/
def process_grade_type (pdfs : List PdfFile) (gradeFiles : String → Excel)
    (info : Info) (mergeOk : String → Nat → Bool) (grade_type : String) : Nat :=
  if (gradeFiles grade_type).pathExists = false then 0
  else
    let pdf_files := pdf_filter grade_type (pdfs.map PdfFile.name)
    if pdf_files = [] then 0
    else
      match load_excel_data (gradeFiles grade_type) with
      | none => 0
      | some grades =>
        (pdf_files.filter
          (fun n =>
            (add_grade_to_pdf true (docOf pdfs n) grades info (mergeOk n)).isSome)).length

/-- `GradeProcessor.process_files` (todiem.py lines 428-465): False when no
spreadsheet is listed or `prepare_grade_files` fails; otherwise rename the
PDFs, process every available category (their success counts are only
logged) and return True. -/
def process_files (env : BatchEnv) : Bool × List Nat :=
  if env.xlsxFiles = [] then (false, [])
  else
    match prepare_grade_files env.excel with
    | none => (false, [])
    | some types =>
      (true,
        types.map
          (process_grade_type (rename_pdf_files env.pdfs).1 env.gradeFiles
            env.info env.mergeOk))

/-! ## Concrete documents and environments used by the witnesses and
counterexamples -/

/-- `true` iff no `text` operation of `ops` is drawn at `(x, y)`. -/
def noTextAt (ops : List DrawOp) (x y : ℚ) : Bool :=
  ops.all
    (fun op =>
      match op with
      | DrawOp.text a b _ => !(a == x && b == y)
      | _ => true)

/-- A one-page document: the grade-column header at x0 = 100 and one
student id token at top = 200. -/
def doc1 : Document :=
  [[Word.mk "Điểm" 100 50 60, Word.mk "123456789" 40 200 210]]

/-- A document whose single id occurs on two pages at different
positions. -/
def dupDoc : Document :=
  [[Word.mk "123456789" 10 20 25], [Word.mk "123456789" 50 60 65]]

/-- A document with a student id but no grade-column header. -/
def noColDoc : Document := [[Word.mk "123456789" 40 200 210]]

/-- A document with a grade-column header but no student id. -/
def colOnlyDoc : Document := [[Word.mk "Điểm" 100 50 60]]

def info1 : Info := Info.mk "CB1" "CB2" "GV1" "GV2"

def grades1 : Dict Cell := [("123456789", Cell.num (17/2))]

/-- A grade table in which `doc1`'s student is present but absent
(NaN score). -/
def grades_na : Dict Cell := [("123456789", Cell.na)]

def sp1 : Dict (ℚ × ℚ × Nat) := [("123456789", (40, 200, 1))]

/-- The per-student canvas calls of `doc1`'s only student under
`grades_na`: just the absence marker at (88, 632), no circle. -/
def opsNa : List DrawOp := [DrawOp.text 88 632 "Vắng"]

def excelW : Excel :=
  Excel.mk true ["Mã SV", "Điểm"] [(" 123456789 ", Cell.num 11)]

/-- Two classifiable files whose rename targets collide: `a.pdf` must take
the disambiguated name `a_qt_1.pdf`. -/
def fs0 : List PdfFile :=
  [PdfFile.mk "a_qt.pdf" "thi quá trình" [], PdfFile.mk "a.pdf" "thi quá trình" []]

def fsW : List PdfFile := [PdfFile.mk "bai_gk.pdf" "thi giữa kỳ" []]

/-- The keys of a dict, in order. -/
def dkeys {α : Type} (d : Dict α) : List String :=
  d.map Prod.fst

/-- The per-student canvas calls of `doc1`'s only student under
`grades1` (score 17/2) with column x = 100: text at (88, 632), the
integer-part bubble at (278.1, 635), the half-point bubble at (329, 635). -/
def ops1 : List DrawOp :=
  [DrawOp.text 88 632 "Tám rưỡi", DrawOp.circle 278.1 635 5.6692,
   DrawOp.circle 329 635 5.6692]

/-- The output of `add_grade_to_pdf` on `doc1` / `grades1` with every
merge succeeding. -/
def pages8 : List (Page × Option (List DrawOp)) :=
  [([Word.mk "Điểm" 100 50 60, Word.mk "123456789" 40 200 210],
    some (add_header_info 1 0 info1 ++ ops1))]

/-- The output of `add_grade_to_pdf` on `doc1` / `grades1` with every
merge failing: the page is passed through unmarked. -/
def pagesW : List (Page × Option (List DrawOp)) :=
  [([Word.mk "Điểm" 100 50 60, Word.mk "123456789" 40 200 210], none)]

/-! ## Helper lemmas -/

theorem dlookup_dinsert {α : Type} (d : Dict α) (k k' : String) (v : α) :
    dlookup (dinsert d k v) k' = if k' = k then some v else dlookup d k' := by
  induction d with
  | nil =>
    by_cases h : k' = k
    · simp [dinsert, dlookup, h]
    · have h2 : ¬ k = k' := fun hh => h hh.symm
      simp [dinsert, dlookup, h, h2]
  | cons e rest ih =>
    by_cases he : e.1 = k
    · by_cases hk : k' = k
      · subst hk
        simp [dinsert, dlookup, he]
      · have hk2 : ¬ k = k' := fun hh => hk hh.symm
        have he2 : ¬ e.1 = k' := fun hh => hk (by rw [← hh]; exact he)
        simp [dinsert, dlookup, he, hk, hk2, he2]
    · by_cases hek : e.1 = k'
      · have hkk : ¬ k' = k := fun hh => he (by rw [hek, hh])
        simp [dinsert, dlookup, he, hek, hkk]
      · simp [dinsert, dlookup, he, hek, ih]

theorem dlookup_foldl_dinsert {α : Type} :
    ∀ (l : List (String × α)) (d : Dict α) (k : String),
      dlookup (l.foldl (fun d e => dinsert d e.1 e.2) d) k =
        match lastVal l k with
        | some v => some v
        | none => dlookup d k := by
  intro l
  induction l with
  | nil => intro d k; simp [lastVal]
  | cons e t ih =>
    intro d k
    have h1 := ih (dinsert d e.1 e.2) k
    simp only [List.foldl_cons]
    rw [h1]
    cases hl : lastVal t k with
    | some v => simp [lastVal, hl]
    | none =>
      simp only [lastVal, hl]
      rw [dlookup_dinsert]
      by_cases he : e.1 = k
      · simp [he]
      · have hk : ¬ k = e.1 := fun hh => he hh.symm
        simp [he, hk]

theorem dlookup_buildDict {α : Type} (l : List (String × α)) (k : String) :
    dlookup (buildDict l) k = lastVal l k := by
  have := dlookup_foldl_dinsert l [] k
  cases hl : lastVal l k <;> simp_all [buildDict, dlookup]

theorem foldl_insert_filterMap {α β : Type} (c : β → Bool) (key : β → String)
    (val : β → α) :
    ∀ (s : List β) (d : Dict α),
      s.foldl (fun d e => if c e = true then dinsert d (key e) (val e) else d) d =
        (s.filterMap (fun e => if c e = true then some (key e, val e) else none)).foldl
          (fun d p => dinsert d p.1 p.2) d := by
  intro s
  induction s with
  | nil => intro d; simp
  | cons e t ih =>
    intro d
    by_cases hc : c e = true
    · simp [hc, ih]
    · simp [hc, ih]

theorem extract_eq_buildDict (doc : Document) :
    extract_student_positions doc = buildDict (matchedEntries doc) := by
  unfold extract_student_positions matchedEntries buildDict
  exact foldl_insert_filterMap (fun e => matchesStudentId e.2.text)
    (fun e => e.2.text) (fun e => (e.2.x0, e.2.top, e.1)) (docStream 1 doc) []

theorem mem_dkeys_dinsert {α : Type} :
    ∀ (d : Dict α) (k : String) (v : α) (x : String),
      x ∈ dkeys (dinsert d k v) ↔ x ∈ dkeys d ∨ x = k := by
  intro d k v
  induction d with
  | nil => intro x; simp [dinsert, dkeys]
  | cons e rest ih =>
    intro x
    by_cases he : e.1 = k
    · simp only [dinsert, if_pos he, dkeys, List.map_cons, List.mem_cons]
      rw [he]
      tauto
    · simp only [dinsert, if_neg he, dkeys, List.map_cons, List.mem_cons]
      have := ih x
      simp only [dkeys] at this
      rw [this]
      tauto

theorem nodup_dkeys_dinsert {α : Type} :
    ∀ (d : Dict α) (k : String) (v : α),
      (dkeys d).Nodup → (dkeys (dinsert d k v)).Nodup := by
  intro d k v
  induction d with
  | nil => intro _; simp [dinsert, dkeys]
  | cons e rest ih =>
    intro hnd
    simp only [dkeys, List.map_cons, List.nodup_cons] at hnd
    by_cases he : e.1 = k
    · simp only [dinsert, if_pos he, dkeys, List.map_cons, List.nodup_cons]
      exact ⟨he ▸ hnd.1, hnd.2⟩
    · simp only [dinsert, if_neg he, dkeys, List.map_cons, List.nodup_cons]
      refine ⟨?_, ih hnd.2⟩
      intro hmem
      have := (mem_dkeys_dinsert rest k v e.1).1 (by simpa [dkeys] using hmem)
      rcases this with h1 | h2
      · exact hnd.1 (by simpa [dkeys] using h1)
      · exact he h2

theorem nodup_dkeys_foldl {α : Type} :
    ∀ (l : List (String × α)) (d : Dict α),
      (dkeys d).Nodup →
        (dkeys (l.foldl (fun d e => dinsert d e.1 e.2) d)).Nodup := by
  intro l
  induction l with
  | nil => intro d h; simpa using h
  | cons e t ih =>
    intro d h
    simpa using ih (dinsert d e.1 e.2) (nodup_dkeys_dinsert d e.1 e.2 h)

theorem nodup_dkeys_buildDict {α : Type} (l : List (String × α)) :
    (dkeys (buildDict l)).Nodup :=
  nodup_dkeys_foldl l [] (by simp [dkeys])

theorem assemble_length (ov : Nat → Option (List DrawOp)) :
    ∀ (n : Nat) (l : Document), (assemble ov n l).length = l.length := by
  intro n l
  induction l generalizing n with
  | nil => rfl
  | cons pg rest ih => simp [assemble, ih]

theorem assemble_get (ov : Nat → Option (List DrawOp)) :
    ∀ (l : Document) (n p : Nat) (hp : p < l.length)
      (hp' : p < (assemble ov n l).length),
      (assemble ov n l).get ⟨p, hp'⟩ = (l.get ⟨p, hp⟩, ov (n + p)) := by
  intro l
  induction l with
  | nil => intro n p hp hp'; exact absurd hp (by simp)
  | cons pg rest ih =>
    intro n p hp hp'
    cases p with
    | zero => simp [assemble]
    | succ p =>
      have hpr : p < rest.length := by simpa using hp
      have hpr' : p < (assemble ov (n + 1) rest).length := by
        rw [assemble_length]; exact hpr
      have := ih (n + 1) p hpr hpr'
      simp only [assemble, List.get_cons_succ]
      rw [this]
      have harith : n + 1 + p = n + (p + 1) := by omega
      rw [harith]

theorem exceptOk_elim {α : Type} (x : Except Unit α) (h : exceptOk x = true) :
    ∃ a, x = Except.ok a := by
  cases x with
  | ok a => exact ⟨a, rfl⟩
  | error u => simp [exceptOk] at h

theorem add_grade_some_elim :
    ∀ (doc : Document) (grades : Dict Cell) (info : Info) (mergeOk : Nat → Bool)
      (pages : List (Page × Option (List DrawOp))),
      add_grade_to_pdf true doc grades info mergeOk = some pages →
      ∃ cx ct cb,
        find_grade_column doc = some (cx, ct, cb) ∧
        (extract_student_positions doc).isEmpty = false ∧
        (∀ p, p < doc.length →
          exceptOk (pageOverlay (extract_student_positions doc) grades info cx p) =
            true) ∧
        pages =
          assemble
            (fun p =>
              if mergeOk p then
                exceptToOption
                  (pageOverlay (extract_student_positions doc) grades info cx p)
              else none)
            0 doc := by
  intro doc grades info mergeOk pages h
  cases hc : find_grade_column doc with
  | none => simp [add_grade_to_pdf, hc] at h
  | some anchor =>
    by_cases he : (extract_student_positions doc).isEmpty = true
    · simp [add_grade_to_pdf, hc, he] at h
    · by_cases hall :
          (List.range doc.length).all
            (fun p =>
              exceptOk
                (pageOverlay (extract_student_positions doc) grades info anchor.1 p)) =
            true
      · refine ⟨anchor.1, anchor.2.1, anchor.2.2, by simp [hc], by simpa using he,
          ?_, ?_⟩
        · intro p hp
          exact (List.all_eq_true.mp hall) p (List.mem_range.mpr hp)
        · simp [add_grade_to_pdf, hc, he, hall] at h
          exact h.symm
      · simp [add_grade_to_pdf, hc, he, hall] at h

theorem add_grade_some_intro :
    ∀ (doc : Document) (grades : Dict Cell) (info : Info) (mergeOk : Nat → Bool)
      (cx ct cb : ℚ),
      find_grade_column doc = some (cx, ct, cb) →
      (extract_student_positions doc).isEmpty = false →
      (∀ p, p < doc.length →
        exceptOk (pageOverlay (extract_student_positions doc) grades info cx p) =
          true) →
      add_grade_to_pdf true doc grades info mergeOk =
        some (assemble
          (fun p =>
            if mergeOk p then
              exceptToOption
                (pageOverlay (extract_student_positions doc) grades info cx p)
            else none)
          0 doc) := by
  intro doc grades info mergeOk cx ct cb hc he hall
  have hall2 :
      (List.range doc.length).all
        (fun p =>
          exceptOk (pageOverlay (extract_student_positions doc) grades info cx p)) =
        true :=
    List.all_eq_true.mpr (fun p hp => hall p (List.mem_range.mp hp))
  simp [add_grade_to_pdf, hc, he, hall2]

theorem addStudentGrades_decomp :
    ∀ (l1 : List (String × (ℚ × ℚ × Nat))) (e : String × (ℚ × ℚ × Nat))
      (l2 : List (String × (ℚ × ℚ × Nat))) (grades : Dict Cell)
      (page_num : Nat) (cx : ℚ) (ops : List DrawOp),
      addStudentGrades (l1 ++ e :: l2) grades page_num cx = Except.ok ops →
      ((e.2.2.2 : ℤ) - 1 = (page_num : ℤ)) →
      ∃ pre eops post,
        studentEntryOps cx e.2.2.1 grades e.1 = Except.ok eops ∧
        ops = pre ++ eops ++ post := by
  intro l1
  induction l1 with
  | nil =>
    intro e l2 grades p cx ops h hpage
    rw [List.nil_append] at h
    unfold addStudentGrades at h
    rw [if_pos hpage] at h
    cases hs : studentEntryOps cx e.2.2.1 grades e.1 with
    | error u => simp [hs] at h
    | ok eops =>
      cases hr : addStudentGrades l2 grades p cx with
      | error u => simp [hs, hr] at h
      | ok more =>
        simp only [hs, hr] at h
        exact ⟨[], eops, more, rfl, by
          rw [← Except.ok.inj h]; simp⟩
  | cons a l1 ih =>
    intro e l2 grades p cx ops h hpage
    rw [List.cons_append] at h
    unfold addStudentGrades at h
    by_cases ha : ((a.2.2.2 : ℤ) - 1 = (p : ℤ))
    · rw [if_pos ha] at h
      cases hs : studentEntryOps cx a.2.2.1 grades a.1 with
      | error u => simp [hs] at h
      | ok aops =>
        cases hr : addStudentGrades (l1 ++ e :: l2) grades p cx with
        | error u => simp [hs, hr] at h
        | ok more =>
          obtain ⟨pre, eops, post, hse, hdec⟩ := ih e l2 grades p cx more hr hpage
          simp only [hs, hr] at h
          refine ⟨aops ++ pre, eops, post, hse, ?_⟩
          rw [← Except.ok.inj h, hdec]
          simp
    · rw [if_neg ha] at h
      exact ih e l2 grades p cx ops h hpage

theorem rename_step_skip (st : List PdfFile) (e : PdfFile)
    (h : strEndsWith e.name ".pdf" = true →
      (content_suffix e.text).isSome = true →
      category_suffixes.any (fun s => strEndsWith (e.name.dropRight 4) s) = true) :
    rename_step st e = (st, none) := by
  unfold rename_step
  by_cases h1 : strEndsWith e.name ".pdf" = false
  · rw [if_pos h1]
  · rw [if_neg h1]
    have h1' : strEndsWith e.name ".pdf" = true := by
      cases hb : strEndsWith e.name ".pdf" <;> simp_all
    cases hcs : content_suffix e.text with
    | none => rfl
    | some sfx =>
      have hg := h h1' (by simp [hcs])
      simp [hcs, hg]

theorem rename_foldl_skip :
    ∀ (l : List PdfFile) (st : List PdfFile) (rens : List (String × String)),
      (∀ e ∈ l, strEndsWith e.name ".pdf" = true →
        (content_suffix e.text).isSome = true →
        category_suffixes.any (fun s => strEndsWith (e.name.dropRight 4) s) = true) →
      l.foldl
        (fun acc e =>
          let r := rename_step acc.1 e
          (r.1, acc.2 ++ r.2.toList))
        (st, rens) = (st, rens) := by
  intro l
  induction l with
  | nil => intro st rens _; rfl
  | cons e t ih =>
    intro st rens h
    have hstep : rename_step st e = (st, none) :=
      rename_step_skip st e (h e (List.mem_cons_self e t))
    simp only [List.foldl_cons, hstep, Option.toList_none, List.append_nil]
    exact ih st rens (fun x hx => h x (List.mem_cons_of_mem e hx))

theorem searchFree_spec :
    ∀ (fuel : Nat) (names : List String) (base sfx : String) (start k : Nat),
      searchFree names base sfx fuel start = some k →
      start ≤ k ∧ names.contains (candName base sfx k) = false ∧
      ∀ j, start ≤ j → j < k → names.contains (candName base sfx j) = true := by
  intro fuel
  induction fuel with
  | zero => intro names base sfx start k h; simp [searchFree] at h
  | succ n ih =>
    intro names base sfx start k h
    unfold searchFree at h
    by_cases hc : names.contains (candName base sfx start) = true
    · rw [if_pos hc] at h
      obtain ⟨h1, h2, h3⟩ := ih names base sfx (start + 1) k h
      refine ⟨by omega, h2, ?_⟩
      intro j hj1 hj2
      by_cases hjs : j = start
      · rw [hjs]; exact hc
      · exact h3 j (by omega) hj2
    · rw [if_neg hc] at h
      have hk : start = k := Option.some.inj h
      subst hk
      refine ⟨Nat.le_refl _, ?_, ?_⟩
      · cases hb : names.contains (candName base sfx start) <;> simp_all
      · intro j hj1 hj2; omega

/-! ## Claims -/

/-- C3: `convert_to_text` is a pure function and, for every input: an
absent score yields "Vắng"; a non-numeric score or one outside [0,10]
yields "Không hợp lệ"; integer part 10 yields "Mười"; a zero fractional
part yields the word for the integer part; a fractional part rounding to
0.5 at one decimal yields the integer word plus " rưỡi"; any other
fractional part yields the integer word alone. -/
theorem C3_convert_to_text_cases :
    (convert_to_text Cell.na = "Vắng") ∧
    (convert_to_text Cell.other = "Không hợp lệ") ∧
    (∀ q : ℚ, q < 0 ∨ q > 10 → convert_to_text (Cell.num q) = "Không hợp lệ") ∧
    (∀ q : ℚ, ¬ (q < 0 ∨ q > 10) → pyint q = 10 →
      convert_to_text (Cell.num q) = "Mười") ∧
    (∀ q : ℚ, ¬ (q < 0 ∨ q > 10) → pyint q ≠ 10 → q - (pyint q : ℚ) = 0 →
      convert_to_text (Cell.num q) = number_words.getD (pyint q).toNat "") ∧
    (∀ q : ℚ, ¬ (q < 0 ∨ q > 10) → pyint q ≠ 10 →
      round1 (q - (pyint q : ℚ)) = 0.5 →
      convert_to_text (Cell.num q) =
        number_words.getD (pyint q).toNat "" ++ " rưỡi") ∧
    (∀ q : ℚ, ¬ (q < 0 ∨ q > 10) → pyint q ≠ 10 → q - (pyint q : ℚ) ≠ 0 →
      round1 (q - (pyint q : ℚ)) ≠ 0.5 →
      convert_to_text (Cell.num q) = number_words.getD (pyint q).toNat "") := by
  have hr0 : round1 0 = 0 := by
    simp [round1, rhe]
  refine ⟨rfl, rfl, ?_, ?_, ?_, ?_, ?_⟩
  · intro q h
    simp only [convert_to_text]
    rw [if_pos h]
  · intro q h h10
    simp only [convert_to_text]
    rw [if_neg h, if_pos h10]
  · intro q h h10 hdp
    simp only [convert_to_text]
    rw [if_neg h, if_neg h10, if_pos hdp]
  · intro q h h10 hhalf
    have hdp : ¬ (q - (pyint q : ℚ) = 0) := by
      intro h0
      rw [h0, hr0] at hhalf
      norm_num at hhalf
    simp only [convert_to_text]
    rw [if_neg h, if_neg h10, if_neg hdp, if_pos hhalf]
  · intro q h h10 hdp hhalf
    simp only [convert_to_text]
    rw [if_neg h, if_neg h10, if_neg hdp, if_neg hhalf]

/-- C4: the combined add-grade operation fails (returns `none`) whenever
the grade-column anchor is not found or the student-position map is empty;
each of the two pure lookups can succeed independently of the other (a
document can have positions without an anchor, and an anchor without
positions). -/
theorem C4_add_grade_failure_conditions :
    (∀ (doc : Document) (grades : Dict Cell) (info : Info) (mergeOk : Nat → Bool),
      find_grade_column doc = none →
      add_grade_to_pdf true doc grades info mergeOk = none) ∧
    (∀ (doc : Document) (grades : Dict Cell) (info : Info) (mergeOk : Nat → Bool),
      extract_student_positions doc = [] →
      add_grade_to_pdf true doc grades info mergeOk = none) ∧
    (∃ doc : Document,
      find_grade_column doc = none ∧ extract_student_positions doc ≠ []) ∧
    (∃ doc : Document,
      find_grade_column doc ≠ none ∧ extract_student_positions doc = []) := by
  refine ⟨?_, ?_, ⟨noColDoc, ?_, ?_⟩, ⟨colOnlyDoc, ?_, ?_⟩⟩
  · intro doc grades info mergeOk h
    simp [add_grade_to_pdf, h]
  · intro doc grades info mergeOk h
    cases hc : find_grade_column doc with
    | none => simp [add_grade_to_pdf, hc]
    | some t =>
      obtain ⟨cx, ct, cb⟩ := t
      simp [add_grade_to_pdf, hc, h]
  · with_unfolding_all rfl
  · with_unfolding_all decide
  · with_unfolding_all decide
  · with_unfolding_all rfl

/-- C10: the per-category document filter selects exactly the `.pdf` names
that CONTAIN the fragment `<category>.pdf` anywhere (substring containment,
not suffix or exact match); in particular the outputs of an earlier run,
named `output_<name>_<category>.pdf`, match again on a rerun. -/
theorem C10_pdf_filter_substring :
    (∀ (grade_type : String) (names : List String) (f : String),
      f ∈ pdf_filter grade_type names ↔
        f ∈ names ∧ strEndsWith f ".pdf" = true ∧
          strContains f (grade_type ++ ".pdf") = true) ∧
    (output_name "scan_qt.pdf" ∈ pdf_filter "qt" [output_name "scan_qt.pdf"]) ∧
    ("bai_qt.pdf_ban_sao.pdf" ∈ pdf_filter "qt" ["bai_qt.pdf_ban_sao.pdf"]) := by
  refine ⟨?_, ?_, ?_⟩
  · intro t names f
    simp [pdf_filter, List.mem_filter, Bool.and_eq_true, and_assoc]
  · with_unfolding_all decide
  · with_unfolding_all decide

/-- C2 (counterexample): the same id on two pages — the retained position
is that of the SECOND (last) occurrence, `(50, 60, page 2)`, not the first
occurrence `(10, 20, page 1)`, refuting first-occurrence-wins. -/
theorem C2_counterexample :
    dlookup (extract_student_positions dupDoc) "123456789" = some (50, 60, 2) ∧
    ((50, 60, 2) : ℚ × ℚ × Nat) ≠ ((10, 20, 1) : ℚ × ℚ × Nat) := by
  constructor
  · with_unfolding_all rfl
  · with_unfolding_all decide

/-- C2 (amended): `extract_student_positions` returns exactly one position
per distinct matching token (its key list has no duplicates), and the
retained position of an id is that of its LAST occurrence in
page-then-word order (later duplicates overwrite earlier ones). -/
theorem C2_positions_last_occurrence_wins :
    ∀ doc : Document,
      (dkeys (extract_student_positions doc)).Nodup ∧
      ∀ id : String,
        dlookup (extract_student_positions doc) id =
          lastVal (matchedEntries doc) id := by
  intro doc
  constructor
  · rw [extract_eq_buildDict]
    exact nodup_dkeys_buildDict _
  · intro id
    rw [extract_eq_buildDict, dlookup_buildDict]

/-- C5: `load_excel_data` fails when the path does not resolve or the id /
score column is missing; the out-of-range warning lists at most 5 ids; on
success the table is exactly the dict of trimmed ids, and lookup returns
the source's (last) value for every present id — an out-of-range score
such as 11 is retained, not dropped. -/
theorem C5_load_excel_data_contract :
    (∀ e : Excel, e.pathExists = false → load_excel_data e = none) ∧
    (∀ e : Excel, ¬ ("Mã SV" ∈ e.cols ∧ "Điểm" ∈ e.cols) →
      load_excel_data e = none) ∧
    (∀ e : Excel, (warned_ids e).length ≤ 5) ∧
    (∀ (e : Excel) (d : Dict Cell),
      load_excel_data e = some d → d = buildDict (trimmedRows e)) ∧
    (∀ (e : Excel) (d : Dict Cell) (id : String) (c : Cell),
      load_excel_data e = some d → lastVal (trimmedRows e) id = some c →
        dlookup d id = some c) := by
  have hsome :
      ∀ (e : Excel) (d : Dict Cell),
        load_excel_data e = some d → d = buildDict (trimmedRows e) := by
    intro e d h
    unfold load_excel_data at h
    split at h
    · exact absurd h (by simp)
    · split at h
      · exact absurd h (by simp)
      · split at h
        · exact absurd h (by simp)
        · exact (Option.some.inj h).symm
  refine ⟨?_, ?_, ?_, hsome, ?_⟩
  · intro e h
    simp [load_excel_data, h]
  · intro e h
    simp [load_excel_data, h]
  · intro e
    simp only [warned_ids, List.length_take]
    exact Nat.min_le_left _ _
  · intro e d id c h hl
    rw [hsome e d h, dlookup_buildDict, hl]

/-- C6 (counterexample): first run on {a_qt.pdf, a.pdf} (both matching the
"quá trình" keyword) renames a.pdf to the disambiguated a_qt_1.pdf; that
name does NOT end in a category suffix, so a second run over the produced
file set renames it again (to a_qt_1_qt.pdf) — the second run is not
rename-free. -/
theorem C6_counterexample :
    (rename_pdf_files (rename_pdf_files fs0).1).2 =
      [("a_qt_1.pdf", "a_qt_1_qt.pdf")] ∧
    (rename_pdf_files (rename_pdf_files fs0).1).2 ≠ [] := by
  constructor
  · with_unfolding_all rfl
  · with_unfolding_all decide

/-- C6 (amended): a second classify run performs no renames PROVIDED every
classifiable file's base name already ends with a category suffix — which
holds for first-run outputs only when no collision disambiguator was
needed, since a disambiguated name `base_sfx_k.pdf` does not end with a
suffix and is renamed again; and on a rename-target collision the
incrementing numeric disambiguator is appended until the first free
candidate name (all earlier candidates exist). -/
theorem C6_classify_idempotence_and_disambiguator :
    (∀ fs : List PdfFile,
      (∀ e ∈ fs, strEndsWith e.name ".pdf" = true →
        (content_suffix e.text).isSome = true →
        category_suffixes.any (fun s => strEndsWith (e.name.dropRight 4) s) = true) →
      rename_pdf_files fs = (fs, [])) ∧
    (∀ (names : List String) (base sfx : String) (k : Nat),
      searchFree names base sfx (names.length + 1) 0 = some k →
      rename_target names base sfx = candName base sfx k ∧
      names.contains (candName base sfx k) = false ∧
      ∀ j, j < k → names.contains (candName base sfx j) = true) := by
  constructor
  · intro fs h
    unfold rename_pdf_files
    exact rename_foldl_skip fs fs [] h
  · intro names base sfx k h
    obtain ⟨-, h2, h3⟩ := searchFree_spec (names.length + 1) names base sfx 0 k h
    refine ⟨?_, h2, fun j hj => h3 j (Nat.zero_le j) hj⟩
    unfold rename_target
    rw [h, Option.getD_some]

/-- C7: the batch pipeline reports success iff spreadsheet discovery and
category splitting succeed: it fails when no spreadsheet file is listed and
when `prepare_grade_files` fails (in particular when none of the three
category score columns is present), and its boolean outcome does not depend
on the documents, per-category grade files or merge outcomes — per-document
failures are only counted, never escalated. -/
theorem C7_process_files_success_iff :
    (∀ env : BatchEnv,
      (process_files env).1 = true ↔
        env.xlsxFiles ≠ [] ∧ prepare_grade_files env.excel ≠ none) ∧
    (∀ env : BatchEnv, env.xlsxFiles = [] → (process_files env).1 = false) ∧
    (∀ e : PrepExcel, (∀ gc ∈ grade_columns, ¬ gc.2 ∈ e.cols) →
      prepare_grade_files e = none) ∧
    (∀ (env : BatchEnv) (pdfs : List PdfFile) (gradeFiles : String → Excel)
        (info : Info) (mergeOk : String → Nat → Bool),
      (process_files
        (BatchEnv.mk env.xlsxFiles env.excel pdfs gradeFiles info mergeOk)).1 =
        (process_files env).1) := by
  refine ⟨?_, ?_, ?_, ?_⟩
  · intro env
    by_cases hx : env.xlsxFiles = []
    · simp [process_files, hx]
    · cases hp : prepare_grade_files env.excel with
      | none => simp [process_files, hx, hp]
      | some types => simp [process_files, hx, hp]
  · intro env h
    simp [process_files, h]
  · intro e h
    have h1 := h ("qt", "Điểm quá trình") (by simp [grade_columns])
    have h2 := h ("gk", "Điểm giữa kỳ") (by simp [grade_columns])
    have h3 := h ("ck", "Điểm cuối kỳ") (by simp [grade_columns])
    simp [prepare_grade_files, grade_columns, List.filter, h1, h2, h3]
  · intro env pdfs gradeFiles info mergeOk
    by_cases hx : env.xlsxFiles = []
    · simp [process_files, hx]
    · cases hp : prepare_grade_files env.excel with
      | none => simp [process_files, hx, hp]
      | some types => simp [process_files, hx, hp]

/-- C1 (counterexample): `doc1` positions student "123456789" at
top = 200 with column anchor x = 100, but the grade dict is empty, so the
code draws NOTHING for that student: the page's only overlay operations are
the header's, and no text operation is drawn at
(columnX - 12, 832 - studentTop) = (88, 632), refuting the claim's
unconditional "the grade text is drawn". -/
theorem C1_counterexample :
    add_grade_to_pdf true doc1 [] info1 (fun _ => true) =
      some [([Word.mk "Điểm" 100 50 60, Word.mk "123456789" 40 200 210],
        some (add_header_info 1 0 info1))] ∧
    noTextAt (add_header_info 1 0 info1) 88 632 = true := by
  constructor
  · with_unfolding_all rfl
  · with_unfolding_all rfl

/-- C1 (amended): for every student positioned on the rendered page whose
trimmed id is PRESENT in the grade table, the operations the page issues
for that student are, contiguously: the word-form of the looked-up score
drawn at x = columnX - 12, y = 832 - studentTop (the absence marker for an
absent score, the invalid marker for an out-of-range one), followed — when
the score is numeric — by the circles exactly when 0 ≤ q ≤ 10: a filled
circle of radius (4 * 2.8346)/2 at x = columnX + 44.5 + trunc(q) * 16.7,
y = (832 - studentTop) + 3, and a second identical circle at
x = columnX + 229 on the same row exactly when the fractional part rounds
to 0.5 at one decimal; a positioned student whose id is MISSING from the
table issues no drawing operation at all. -/
theorem C1_marks_for_students_in_table :
    ∀ (sp : Dict (ℚ × ℚ × Nat)) (grades : Dict Cell) (page_num : Nat) (cx : ℚ)
      (id : String) (x0 top : ℚ) (pn : Nat) (ops : List DrawOp),
      (id, (x0, top, pn)) ∈ sp →
      (pn : ℤ) - 1 = (page_num : ℤ) →
      addStudentGrades sp grades page_num cx = Except.ok ops →
      ((dlookup grades (pytrim id) = some Cell.na →
        ∃ pre post,
          ops = pre ++
            [DrawOp.text (cx - 12) (832 - top) (convert_to_text Cell.na)] ++
            post) ∧
      (∀ q : ℚ, dlookup grades (pytrim id) = some (Cell.num q) →
        ∃ pre post,
          ops = pre ++
            ([DrawOp.text (cx - 12) (832 - top) (convert_to_text (Cell.num q))] ++
              (if 0 ≤ q ∧ q ≤ 10 then
                [DrawOp.circle (cx + 44.5 + (pyint q : ℚ) * 16.7)
                  ((832 - top) + 3) (4 * 2.8346 / 2)] ++
                  (if round1 (q - (pyint q : ℚ)) = 0.5 then
                    [DrawOp.circle (cx + 229) ((832 - top) + 3) (4 * 2.8346 / 2)]
                  else [])
              else [])) ++ post) ∧
      (dlookup grades (pytrim id) = none →
        studentEntryOps cx top grades id = Except.ok [])) := by
  intro sp grades page_num cx id x0 top pn ops hmem hpage hok
  obtain ⟨l1, l2, hsplit⟩ := List.append_of_mem hmem
  rw [hsplit] at hok
  obtain ⟨pre, eops, post, hse, hdec⟩ :=
    addStudentGrades_decomp l1 (id, (x0, top, pn)) l2 grades page_num cx ops hok
      hpage
  refine ⟨?_, ?_, ?_⟩
  · intro hna
    unfold studentEntryOps at hse
    simp only [hna] at hse
    have heops := Except.ok.inj hse
    refine ⟨pre, post, ?_⟩
    rw [hdec, ← heops]
  · intro q hq
    unfold studentEntryOps at hse
    simp only [hq] at hse
    have heops := Except.ok.inj hse
    refine ⟨pre, post, ?_⟩
    rw [hdec, ← heops]
    by_cases hr : 0 ≤ q ∧ q ≤ 10
    · simp [hr, draw_score_circles]
    · simp [hr]
  · intro hnone
    simp [studentEntryOps, hnone]

/-- C1 (witness): the amended theorem applied on page 0, column x = 100, to
`doc1`'s student positioned at top = 200: with the absent score of
`grades_na` only the absence marker is drawn at (88, 632); with the score
17/2 of `grades1` the text and both circles are issued; and with an empty
grade table the student issues no operation at all. -/
theorem C1_witness :
    (∃ pre post,
      opsNa = pre ++
        [DrawOp.text ((100 : ℚ) - 12) (832 - 200) (convert_to_text Cell.na)] ++
        post) ∧
    (∃ pre post,
      ops1 = pre ++
        ([DrawOp.text ((100 : ℚ) - 12) (832 - 200)
            (convert_to_text (Cell.num (17/2)))] ++
          (if 0 ≤ (17/2 : ℚ) ∧ (17/2 : ℚ) ≤ 10 then
            [DrawOp.circle ((100 : ℚ) + 44.5 + (pyint (17/2 : ℚ) : ℚ) * 16.7)
              (((832 : ℚ) - 200) + 3) (4 * 2.8346 / 2)] ++
              (if round1 ((17/2 : ℚ) - (pyint (17/2 : ℚ) : ℚ)) = 0.5 then
                [DrawOp.circle ((100 : ℚ) + 229) (((832 : ℚ) - 200) + 3)
                  (4 * 2.8346 / 2)]
              else [])
          else [])) ++ post) ∧
    (studentEntryOps 100 200 ([] : Dict Cell) "123456789" = Except.ok []) :=
  ⟨(C1_marks_for_students_in_table sp1 grades_na 0 100 "123456789" 40 200 1
      opsNa (by with_unfolding_all decide) (by with_unfolding_all decide)
      (by with_unfolding_all rfl)).1 (by with_unfolding_all rfl),
   (C1_marks_for_students_in_table sp1 grades1 0 100 "123456789" 40 200 1
      ops1 (by with_unfolding_all decide) (by with_unfolding_all decide)
      (by with_unfolding_all rfl)).2.1 (17/2) (by with_unfolding_all rfl),
   (C1_marks_for_students_in_table sp1 [] 0 100 "123456789" 40 200 1
      [] (by with_unfolding_all decide) (by with_unfolding_all decide)
      (by with_unfolding_all rfl)).2.2 (by with_unfolding_all rfl)⟩

/-- C8: on a successful run, page index 0's overlay is exactly the header
annotations (total count, absent count, the four names at their fixed
coordinates) followed by the per-student marks, and the overlay of every
other page is exactly the per-student marks — no header operation appears
on any page other than page 0. -/
theorem C8_header_on_first_page_only :
    ∀ (doc : Document) (grades : Dict Cell) (info : Info) (mergeOk : Nat → Bool)
      (pages : List (Page × Option (List DrawOp))) (cx ct cb : ℚ),
      add_grade_to_pdf true doc grades info mergeOk = some pages →
      find_grade_column doc = some (cx, ct, cb) →
      (∀ hp : 0 < pages.length, mergeOk 0 = true →
        ∃ ops,
          addStudentGrades (extract_student_positions doc) grades 0 cx =
            Except.ok ops ∧
          (pages.get ⟨0, hp⟩).2 =
            some (add_header_info (extract_student_positions doc).length
              (absent_count (extract_student_positions doc) grades) info ++ ops)) ∧
      (∀ (p : Nat) (hp : p < pages.length), p ≠ 0 → mergeOk p = true →
        ∃ ops,
          addStudentGrades (extract_student_positions doc) grades p cx =
            Except.ok ops ∧
          (pages.get ⟨p, hp⟩).2 = some ops) := by
  intro doc grades info mergeOk pages cx ct cb h hcol
  obtain ⟨cx2, ct2, cb2, hc2, he2, hall2, hpages⟩ :=
    add_grade_some_elim doc grades info mergeOk pages h
  rw [hcol] at hc2
  obtain ⟨rfl, rfl, rfl⟩ : cx = cx2 ∧ ct = ct2 ∧ cb = cb2 := by
    simpa [Prod.ext_iff] using Option.some.inj hc2
  subst hpages
  constructor
  · intro hp0 hm0
    have hd0 : 0 < doc.length := by
      rw [assemble_length] at hp0; exact hp0
    obtain ⟨ov0, hov0⟩ := exceptOk_elim _ (hall2 0 hd0)
    cases hasg :
        addStudentGrades (extract_student_positions doc) grades 0 cx with
    | error u => simp [pageOverlay, hasg] at hov0
    | ok ops =>
      refine ⟨ops, rfl, ?_⟩
      rw [assemble_get _ doc 0 0 hd0 hp0]
      simp [hm0, pageOverlay, hasg, exceptToOption]
  · intro p hp hne hm
    have hd : p < doc.length := by
      rw [assemble_length] at hp; exact hp
    obtain ⟨ovp, hovp⟩ := exceptOk_elim _ (hall2 p hd)
    cases hasg :
        addStudentGrades (extract_student_positions doc) grades p cx with
    | error u => simp [pageOverlay, hasg] at hovp
    | ok ops =>
      refine ⟨ops, rfl, ?_⟩
      rw [assemble_get _ doc 0 p hd hp]
      simp [hm, pageOverlay, hasg, exceptToOption, hne]

/-- C8 (witness): on `doc1` / `grades1` with all merges succeeding, page 0
carries the header block followed by the student marks. -/
theorem C8_witness :
    ∃ ops,
      addStudentGrades (extract_student_positions doc1) grades1 0 100 =
        Except.ok ops ∧
      (pages8.get ⟨0, by decide⟩).2 =
        some (add_header_info (extract_student_positions doc1).length
          (absent_count (extract_student_positions doc1) grades1) info1 ++ ops) :=
  (C8_header_on_first_page_only doc1 grades1 info1 (fun _ => true) pages8
    100 50 60 (by with_unfolding_all rfl) (by with_unfolding_all rfl)).1
    (by decide) rfl

/-- C9: whenever `add_grade_to_pdf` succeeds, the output has exactly one
page per input page in the same order — each output page's source is the
corresponding input page — and this holds regardless of the per-page merge
outcomes: for ANY merge oracle the operation still succeeds with the same
page count and sources (a failed overlay merge leaves its page unmarked but
present). -/
theorem C9_one_output_page_per_input_page :
    ∀ (doc : Document) (grades : Dict Cell) (info : Info) (mergeOk : Nat → Bool)
      (pages : List (Page × Option (List DrawOp))),
      add_grade_to_pdf true doc grades info mergeOk = some pages →
      pages.length = doc.length ∧
      (∀ (p : Nat) (hp : p < pages.length) (hd : p < doc.length),
        (pages.get ⟨p, hp⟩).1 = doc.get ⟨p, hd⟩) ∧
      (∀ mergeOkB : Nat → Bool,
        ∃ pagesB,
          add_grade_to_pdf true doc grades info mergeOkB = some pagesB ∧
          pagesB.length = doc.length ∧
          ∀ (p : Nat) (hp : p < pagesB.length) (hd : p < doc.length),
            (pagesB.get ⟨p, hp⟩).1 = doc.get ⟨p, hd⟩) := by
  intro doc grades info mergeOk pages h
  obtain ⟨cx, ct, cb, hc, he, hall, hpages⟩ :=
    add_grade_some_elim doc grades info mergeOk pages h
  subst hpages
  refine ⟨assemble_length _ 0 doc, ?_, ?_⟩
  · intro p hp hd
    rw [assemble_get _ doc 0 p hd hp]
  · intro mergeOkB
    refine ⟨_, add_grade_some_intro doc grades info mergeOkB cx ct cb hc he hall,
      assemble_length _ 0 doc, ?_⟩
    intro p hp hd
    rw [assemble_get _ doc 0 p hd hp]

/-- C9 (witness): on `doc1` / `grades1` with every merge failing, the
output still has exactly `doc1`'s page count. -/
theorem C9_witness : pagesW.length = doc1.length :=
  (C9_one_output_page_per_input_page doc1 grades1 info1 (fun _ => false) pagesW
    (by with_unfolding_all rfl)).1
